import Mathlib

/-!
Shallow embedding of the weekly turn-resolution engine of the founders-dilemma
repository (src/src-tauri/src/lib.rs and src/src-tauri/src/game/*).

Modelling conventions:
* `f64` values are embedded as `ℚ`; `u32`/`u8` values as `Nat`, with wrapping
  (`% 256`) or saturating casts made explicit where the Rust semantics has them.
* Rust's `as u32` cast from `f64` truncates toward zero and saturates at the
  type bounds; it is embedded as `ratToU32`.
* `runway_months` is `Option ℚ`: `none` models `f64::INFINITY` (set when
  `burn = 0`); comparisons against it are spelled out where used.
* Randomness (`rand::thread_rng` draws) is an explicit oracle `Rng`: a stream
  of rationals whose fractional parts play the role of uniform `[0,1)` draws,
  consumed in the order the source draws them. Theorems quantify over the
  oracle, so they hold for every possible sequence of draws.
* `HashMap<String, u32>` (event cooldowns) is embedded as `String → Option Nat`.
* Prose-only payloads (messages, names, descriptions, customer personas,
  competitor flavor) are omitted: the spec scopes them out as external
  collaborators, and `GameState` in state.rs has no `customers`/`competitors`
  field, so the references to them elsewhere in the crate do not type-check
  against the canonical state. Omitted draws for persona generation do not
  affect any theorem below, which quantify over the whole oracle stream.
-/

namespace Founders

set_option maxRecDepth 1000000

/-- Fractional part of a rational: `q - ⌊q⌋ ∈ [0,1)`. Models a uniform draw. -/
def frac (q : ℚ) : ℚ := q - ⌊q⌋

theorem frac_nonneg (q : ℚ) : 0 ≤ frac q := by
  have h := Int.floor_le q
  simp only [frac]
  linarith

theorem frac_lt_one (q : ℚ) : frac q < 1 := by
  have h := Int.lt_floor_add_one q
  simp only [frac]
  linarith

/-- Random-number oracle: an infinite stream of rationals and a cursor. -/
structure Rng where
  stream : Nat → ℚ
  idx : Nat

/-- Take the next uniform `[0,1)` draw from the oracle. -/
def Rng.draw (r : Rng) : ℚ × Rng :=
  (frac (r.stream r.idx), ⟨r.stream, r.idx + 1⟩)

/-- `rng.gen_bool(p)`: true with probability `p`. -/
def Rng.genBool (r : Rng) (p : ℚ) : Bool × Rng :=
  let (u, rr) := r.draw
  (decide (u < p), rr)

/-- `rng.gen_range(a..b)` on floats: a draw in `[a, b)` (for `a < b`). -/
def Rng.genRange (r : Rng) (a b : ℚ) : ℚ × Rng :=
  let (u, rr) := r.draw
  (a + u * (b - a), rr)

/-- `rng.gen_range(0..n)` on integers: a draw in `[0, n-1]`. -/
def Rng.genNat (r : Rng) (n : Nat) : Nat × Rng :=
  let (u, rr) := r.draw
  (min (n - 1) (Int.toNat ⌊u * (n : ℚ)⌋), rr)

/-- Rust `f64 as u32`: truncate toward zero, saturate at `0` and `u32::MAX`. -/
def ratToU32 (q : ℚ) : Nat := min 4294967295 (Int.toNat ⌊q⌋)

/-- Rust `f64::clamp(lo, hi)` (for `lo ≤ hi`). -/
def clampQ (x lo hi : ℚ) : ℚ := max lo (min x hi)

/-- Models `num / den > bound` on `f64` where `den` may be `0`
(`x/0 = ±∞` or `NaN` in floats, and any comparison with `NaN` is false). -/
def f64DivGt (num den bound : ℚ) : Bool :=
  if den = 0 then decide (num > 0) else decide (num / den > bound)

/-! ### Action data model (game/actions.rs) -/

inductive Quality
  | quick
  | balanced
  | polish
deriving DecidableEq

inductive RefactorDepth
  | surface
  | medium
  | deep
deriving DecidableEq

inductive ExperimentType
  | pricing
  | onboarding
  | channel
deriving DecidableEq

inductive ContentType
  | blogPost
  | tutorial
  | caseStudy
  | video
deriving DecidableEq

inductive DevRelEvent
  | conference
  | podcast
  | openSource
  | workshop
deriving DecidableEq

inductive AdChannel
  | google
  | social
  | display
  | influencer
deriving DecidableEq

inductive CoachingFocus
  | skills
  | morale
  | alignment
  | performance
deriving DecidableEq

inductive FiringReason
  | performance
  | culture
  | budget
deriving DecidableEq

/-- Player actions (enum `Action`). -/
inductive Action
  | shipFeature (quality : Quality)
  | refactorCode (depth : RefactorDepth)
  | runExperiment (category : ExperimentType)
  | founderLedSales (callCount : Nat)
  | contentLaunch (contentType : ContentType)
  | devRel (eventType : DevRelEvent)
  | paidAds (budget : ℚ) (channel : AdChannel)
  | hire
  | coach (focus : CoachingFocus)
  | fire (reason : FiringReason)
  | complianceWork (hours : Nat)
  | incidentResponse
  | processImprovement
  | fundraise (target : ℚ)
  | takeBreak
deriving DecidableEq

/-- `Action::focus_cost` (u8). -/
def Action.focus_cost : Action → Nat
  | .shipFeature _ => 1
  | .refactorCode d =>
      match d with
      | .surface => 1
      | .medium => 1
      | .deep => 2
  | .runExperiment _ => 1
  | .founderLedSales _ => 1
  | .contentLaunch _ => 1
  | .devRel _ => 2
  | .paidAds _ _ => 1
  | .hire => 2
  | .coach _ => 1
  | .fire _ => 1
  | .complianceWork _ => 1
  | .incidentResponse => 2
  | .processImprovement => 1
  | .fundraise _ => 2
  | .takeBreak => 1

/-- One stat change record produced by an action (`StatEffect`). -/
structure StatEffect where
  stat_name : String
  old_value : ℚ
  new_value : ℚ
  delta : ℚ
deriving DecidableEq

/-- `ActionResult` (outcome message prose omitted). -/
structure ActionResult where
  success : Bool
  effects : List StatEffect
deriving DecidableEq

/-! ### Market conditions data model (game/market_conditions.rs) -/

/-- `MarketModifier` (description prose omitted). -/
structure MarketModifier where
  stat_affected : String
  multiplier : ℚ
deriving DecidableEq

/-- `MarketCondition` (name/description prose omitted). -/
structure MarketCondition where
  id : String
  duration_weeks : Nat
  modifiers : List MarketModifier
deriving DecidableEq

/-- enum `MarketEvent`. -/
inductive MarketEvent
  | bullMarket
  | recession
  | competitorLaunch
  | techBoom
  | regulationChange
  | talentWar
  | viralTrend
  | supplyChainDisruption
  | economicStimulus
  | industryConsolidation
  | techCrunch
  | dataBreachScare
  | competitorFundingRound
  | competitorAcquisition
  | competitorPricingWar
deriving DecidableEq

/-- `format!("{:?}", event)`, the id string of a market event. -/
def marketEventId : MarketEvent → String
  | .bullMarket => "BullMarket"
  | .recession => "Recession"
  | .competitorLaunch => "CompetitorLaunch"
  | .techBoom => "TechBoom"
  | .regulationChange => "RegulationChange"
  | .talentWar => "TalentWar"
  | .viralTrend => "ViralTrend"
  | .supplyChainDisruption => "SupplyChainDisruption"
  | .economicStimulus => "EconomicStimulus"
  | .industryConsolidation => "IndustryConsolidation"
  | .techCrunch => "TechCrunch"
  | .dataBreachScare => "DataBreachScare"
  | .competitorFundingRound => "CompetitorFundingRound"
  | .competitorAcquisition => "CompetitorAcquisition"
  | .competitorPricingWar => "CompetitorPricingWar"

/-- `get_modifiers_for_event`. -/
def get_modifiers_for_event : MarketEvent → List MarketModifier
  | .bullMarket =>
      [⟨"fundraising_success", 1.3⟩, ⟨"wau_growth", 1.2⟩, ⟨"burn", 1.15⟩]
  | .recession =>
      [⟨"fundraising_success", 0.6⟩, ⟨"wau_growth", 0.9⟩, ⟨"churn_rate", 1.3⟩,
       ⟨"burn", 0.8⟩]
  | .competitorLaunch =>
      [⟨"wau_growth", 0.85⟩, ⟨"reputation", 0.9⟩, ⟨"churn_rate", 1.05⟩]
  | .techBoom =>
      [⟨"hiring_cost", 1.5⟩, ⟨"velocity", 1.2⟩, ⟨"fundraising_success", 1.25⟩]
  | .regulationChange =>
      [⟨"compliance_risk", 1.4⟩, ⟨"velocity", 0.85⟩]
  | .talentWar =>
      [⟨"hiring_cost", 1.6⟩, ⟨"morale", 0.9⟩, ⟨"hire_velocity_bonus", 1.2⟩]
  | .viralTrend =>
      [⟨"wau_growth", 1.4⟩, ⟨"reputation", 1.1⟩]
  | .supplyChainDisruption =>
      [⟨"velocity", 0.8⟩, ⟨"burn", 1.1⟩]
  | .economicStimulus =>
      [⟨"fundraising_success", 1.2⟩, ⟨"wau_growth", 1.1⟩]
  | .industryConsolidation =>
      [⟨"fundraising_success", 1.15⟩, ⟨"reputation", 0.95⟩]
  | .techCrunch =>
      [⟨"reputation", 1.2⟩, ⟨"wau_growth", 1.15⟩]
  | .dataBreachScare =>
      [⟨"compliance_risk", 1.3⟩, ⟨"reputation", 0.95⟩]
  | .competitorFundingRound =>
      [⟨"reputation", 0.95⟩, ⟨"churn_rate", 1.1⟩]
  | .competitorAcquisition =>
      [⟨"fundraising_success", 0.85⟩, ⟨"reputation", 1.2⟩]
  | .competitorPricingWar =>
      [⟨"mrr_growth", 0.9⟩, ⟨"churn_rate", 1.15⟩]

/-! ### Game state (game/state.rs) -/

/-- enum `DifficultyMode`. -/
inductive DifficultyMode
  | indieBootstrap
  | vcTrack
  | regulatedFintech
  | infraDevTool
deriving DecidableEq

def DifficultyMode.starting_bank : DifficultyMode → ℚ
  | .indieBootstrap => 50000
  | .vcTrack => 1000000
  | .regulatedFintech => 500000
  | .infraDevTool => 300000

def DifficultyMode.starting_burn : DifficultyMode → ℚ
  | .indieBootstrap => 8000
  | .vcTrack => 80000
  | .regulatedFintech => 40000
  | .infraDevTool => 25000

/-- `WeekSnapshot`. -/
structure WeekSnapshot where
  week : Nat
  bank : ℚ
  mrr : ℚ
  burn : ℚ
  wau : Nat
  morale : ℚ
  reputation : ℚ
  momentum : ℚ
deriving DecidableEq

/-- `EscapeVelocityProgress` (streak_weeks is u8). -/
structure EscapeVelocityProgress where
  revenue_covers_burn : Bool
  growth_sustained : Bool
  customer_love : Bool
  founder_healthy : Bool
  streak_weeks : Nat
deriving DecidableEq

/-- `EscapeVelocityProgress::all_conditions_met`. -/
def EscapeVelocityProgress.all_conditions_met (p : EscapeVelocityProgress) : Bool :=
  p.revenue_covers_burn && p.growth_sustained && p.customer_love && p.founder_healthy

/-- enum `SpecializationPath` (game/synergies.rs). -/
inductive SpecializationPath
  | productExcellence
  | growthHacking
  | operationalEfficiency
  | customerObsessed
deriving DecidableEq

/-- `HashMap<String, u32>` embedded as an association list with unique keys.
(Iteration order of the HashMap is irrelevant to every operation used:
pointwise decrement, keyed insert, keyed lookup.) -/
def CooldownMap := List (String × Nat)

/-- The empty cooldown map. -/
def emptyCooldowns : CooldownMap := []

/-- `HashMap::get`. -/
def lookupCd (m : CooldownMap) (k : String) : Option Nat :=
  match m with
  | [] => none
  | p :: rest => if p.1 = k then some p.2 else lookupCd rest k

/-- `HashMap::insert` (replace the entry if the key is present, else add it). -/
def cdInsert (m : CooldownMap) (k : String) (v : Nat) : CooldownMap :=
  match m with
  | [] => [(k, v)]
  | p :: rest => if p.1 = k then (k, v) :: rest else p :: cdInsert rest k v

/-- `GameState` (game/state.rs). Fields that carry only identifiers or
presentation payloads (`game_id`, `started_at`, `seasonal_challenge`,
`customer_segments`, `last_break_week`, `consecutive_ship_weeks`) are omitted:
none of the embedded pipeline reads or writes them. -/
structure GameState where
  week : Nat
  difficulty : DifficultyMode
  bank : ℚ
  burn : ℚ
  runway_months : Option ℚ
  focus_slots : Nat
  mrr : ℚ
  wau : Nat
  wau_growth_rate : ℚ
  churn_rate : ℚ
  morale : ℚ
  reputation : ℚ
  nps : ℚ
  tech_debt : ℚ
  compliance_risk : ℚ
  velocity : ℚ
  founder_equity : ℚ
  option_pool : ℚ
  momentum : ℚ
  escape_velocity_progress : EscapeVelocityProgress
  history : List WeekSnapshot
  unlocked_actions : List String
  active_market_conditions : List MarketCondition
  specialization_path : Option SpecializationPath
  action_history : List (Nat × List Action)
  event_cooldowns : CooldownMap
  team_size : Nat
  incident_count : Nat

/-- `GameState::update_derived_metrics`. -/
def update_derived_metrics (s : GameState) : GameState :=
  { s with
    runway_months := if s.burn > 0 then some (s.bank / s.burn) else none
    momentum := (s.wau_growth_rate / 100 + 1) * s.velocity * (s.morale / 100)
    morale := clampQ s.morale 0 100
    reputation := clampQ s.reputation 0 100
    nps := clampQ s.nps (-100) 100
    tech_debt := clampQ s.tech_debt 0 100
    compliance_risk := clampQ s.compliance_risk 0 100
    velocity := clampQ s.velocity 0.1 3
    churn_rate := clampQ s.churn_rate 0 100 }

/-- `GameState::save_snapshot`: push a snapshot, keep the last 52. -/
def save_snapshot (s : GameState) : GameState :=
  let snap : WeekSnapshot :=
    ⟨s.week, s.bank, s.mrr, s.burn, s.wau, s.morale, s.reputation, s.momentum⟩
  let h := s.history ++ [snap]
  { s with history := if h.length > 52 then h.drop 1 else h }

/-- `GameState::new`: difficulty-specific starting values, then derived-metric
recomputation and the initial snapshot (uuid/timestamp meta omitted). -/
def GameState.new (difficulty : DifficultyMode) : GameState :=
  let bank := difficulty.starting_bank
  let burn := difficulty.starting_burn
  let s : GameState :=
    { week := 0
      difficulty := difficulty
      bank := bank
      burn := burn
      runway_months := some (bank / burn)
      focus_slots := 3
      mrr := 0
      wau := 100
      wau_growth_rate := 0
      churn_rate := 5
      morale := 80
      reputation := 50
      nps := 0
      tech_debt := 10
      compliance_risk := 20
      velocity := 1
      founder_equity := 100
      option_pool := 0
      momentum := 0
      escape_velocity_progress := ⟨false, false, false, false, 0⟩
      history := []
      unlocked_actions :=
        ["ShipFeature", "FounderLedSales", "Hire", "Fundraise", "TakeBreak"]
      active_market_conditions := []
      specialization_path := none
      action_history := []
      event_cooldowns := emptyCooldowns
      team_size := 1
      incident_count := 0 }
  save_snapshot (update_derived_metrics s)

/-! ### Market condition engine (game/market_conditions.rs) -/

/-- `get_active_conditions`. -/
def get_active_conditions (s : GameState) : List MarketCondition :=
  s.active_market_conditions

/-- `update_market_conditions`: decrement every positive duration, then drop
conditions whose duration reached zero. -/
def update_market_conditions (s : GameState) : GameState :=
  let aged := s.active_market_conditions.map
    (fun c => if c.duration_weeks > 0 then { c with duration_weeks := c.duration_weeks - 1 } else c)
  { s with active_market_conditions := aged.filter (fun c => c.duration_weeks > 0) }

/-- The pool drawn from in `generate_market_condition` (competitor-specific
events are excluded there). -/
def marketEventPool : List MarketEvent :=
  [.bullMarket, .recession, .competitorLaunch, .techBoom, .regulationChange,
   .talentWar, .viralTrend, .supplyChainDisruption, .economicStimulus,
   .industryConsolidation, .techCrunch, .dataBreachScare]

/-- `generate_market_condition`: with probability 0.15 draw one event from the
pool with a duration of 4–8 weeks. The `CompetitorLaunch` arm's
competitor-scaled branch is unreachable in the embedding because the canonical
`GameState` (state.rs) has no `competitors` field; the plain-modifiers
fallback arm of the source is used. -/
def generate_market_condition (_s : GameState) (_week : Nat) (rng : Rng) :
    Option MarketCondition × Rng :=
  let (roll, r1) := rng.genBool 0.15
  if !roll then
    (none, r1)
  else
    let (idx, r2) := r1.genNat marketEventPool.length
    let event := marketEventPool.getD idx .bullMarket
    let (d, r3) := r2.genNat 5
    let duration := 4 + d
    (some ⟨marketEventId event, duration, get_modifiers_for_event event⟩, r3)

/-- `get_action_effectiveness_modifier`: compose per-condition multipliers for
the action's kind, then clamp to `[0.5, 2.0]`. -/
def get_action_effectiveness_modifier (action : Action) (conditions : List MarketCondition) : ℚ :=
  let modifier := conditions.foldl
    (fun (m : ℚ) c =>
      if c.id = "BullMarket" then
        match action with
        | .fundraise _ => m * 1.5
        | .paidAds _ _ => m * 1.1
        | _ => m
      else if c.id = "Recession" then
        match action with
        | .fundraise _ => m * 0.6
        | .hire => m * 0.8
        | _ => m
      else if c.id = "CompetitorLaunch" then
        match action with
        | .paidAds _ _ => m * 0.7
        | .contentLaunch _ => m * 0.9
        | _ => m
      else if c.id = "TechBoom" then
        match action with
        | .hire => m * 1.2
        | .fundraise _ => m * 1.25
        | _ => m
      else if c.id = "RegulationChange" then
        match action with
        | .complianceWork _ => m * 1.2
        | .shipFeature _ => m * 0.9
        | _ => m
      else if c.id = "TalentWar" then
        match action with
        | .hire => m * 0.7
        | .coach _ => m * 1.1
        | _ => m
      else if c.id = "ViralTrend" then
        match action with
        | .contentLaunch _ => m * 1.3
        | .paidAds _ _ => m * 1.2
        | _ => m
      else if c.id = "SupplyChainDisruption" then
        match action with
        | .processImprovement => m * 1.1
        | .incidentResponse => m * 0.9
        | _ => m
      else if c.id = "EconomicStimulus" then
        match action with
        | .fundraise _ => m * 1.2
        | .founderLedSales _ => m * 1.1
        | _ => m
      else if c.id = "IndustryConsolidation" then
        match action with
        | .fundraise _ => m * 1.15
        | .devRel _ => m * 0.95
        | _ => m
      else if c.id = "TechCrunch" then
        match action with
        | .contentLaunch _ => m * 1.2
        | .devRel _ => m * 1.1
        | _ => m
      else if c.id = "DataBreachScare" then
        match action with
        | .complianceWork _ => m * 1.3
        | .incidentResponse => m * 1.1
        | _ => m
      else if c.id = "CompetitorFundingRound" then
        match action with
        | .fundraise _ => m * 0.9
        | .paidAds _ _ => m * 0.8
        | _ => m
      else if c.id = "CompetitorAcquisition" then
        match action with
        | .fundraise _ => m * 1.1
        | .devRel _ => m * 1.1
        | _ => m
      else if c.id = "CompetitorPricingWar" then
        match action with
        | .paidAds _ _ => m * 0.7
        | .founderLedSales _ => m * 0.8
        | _ => m
      else m)
    1
  clampQ modifier 0.5 2

/-! ### Weekly economics (game/economy.rs) -/

/-- `apply_churn`: weekly multiplicative MRR decay from the monthly churn rate. -/
def apply_churn (s : GameState) : GameState :=
  let monthly_churn := s.churn_rate / 100
  let weekly_churn := monthly_churn / 4
  { s with mrr := s.mrr * (1 - weekly_churn) }

/-- `update_nps`: exponential drift (weight 0.1) toward a target built from a
tech-debt penalty and a velocity bonus. -/
def update_nps (s : GameState) : GameState :=
  let debt_penalty : ℚ :=
    if s.tech_debt > 70 then -10 else if s.tech_debt > 40 then -5 else 0
  let velocity_bonus : ℚ :=
    if s.velocity > 1.2 then 5 else if s.velocity < 0.8 then -5 else 0
  let target_nps := 30 + velocity_bonus + debt_penalty
  { s with nps := s.nps * 0.9 + target_nps * 0.1 }

/-! ### Victory / defeat / escape velocity (game/victory.rs) -/

inductive VictoryCondition
  | escapeVelocity (weeksSustained : Nat)
deriving DecidableEq

inductive DefeatCondition
  | outOfMoney
  | founderBurnout
  | reputationDestroyed
deriving DecidableEq

/-- `check_victory`. -/
def check_victory (s : GameState) : Option VictoryCondition :=
  if s.escape_velocity_progress.streak_weeks ≥ 12 then
    some (.escapeVelocity s.escape_velocity_progress.streak_weeks)
  else none

/-- `runway_months <= 0.0` under the `Option` embedding of `f64::INFINITY`
(`INFINITY ≤ 0` is false). -/
def runwayNonpos (r : Option ℚ) : Bool :=
  match r with
  | none => false
  | some q => decide (q ≤ 0)

/-- `check_defeat`: OutOfMoney, then FounderBurnout, then ReputationDestroyed. -/
def check_defeat (s : GameState) : Option DefeatCondition :=
  if s.bank ≤ 0 ∨ runwayNonpos s.runway_months then some .outOfMoney
  else if s.morale ≤ 0 then some .founderBurnout
  else if s.reputation ≤ 10 then some .reputationDestroyed
  else none

/-- `update_escape_velocity_progress`: recompute the four gates, then
`streak_weeks += 1` (u8, wrapping at 256) if all hold, else reset to 0. -/
def update_escape_velocity_progress (s : GameState) : GameState :=
  let p : EscapeVelocityProgress :=
    { revenue_covers_burn := decide (s.mrr ≥ s.burn)
      growth_sustained := decide (s.wau_growth_rate ≥ 10)
      customer_love := decide (s.nps ≥ 30)
      founder_healthy := decide (s.morale > 40)
      streak_weeks := s.escape_velocity_progress.streak_weeks }
  let p2 :=
    if p.all_conditions_met then
      { p with streak_weeks := (p.streak_weeks + 1) % 256 }
    else
      { p with streak_weeks := 0 }
  { s with escape_velocity_progress := p2 }

/-- `GameState::advance_week`: weekly burn/revenue, organic WAU growth, morale
decay, tech-debt creep, the nested market-condition age-and-roll, the
action-history trim, the probabilistic incident counter, derived-metric
re-clamping, and the week snapshot. -/
def advance_week (s : GameState) (rng : Rng) : GameState × Rng :=
  let s1 := { s with week := s.week + 1 }
  let s2 := { s1 with bank := s1.bank - s1.burn / 4 }
  let s3 := { s2 with bank := s2.bank + s2.mrr / 4 }
  let prev_wau := s3.wau
  let s4 := { s3 with wau := ratToU32 ((s3.wau : ℚ) * (1 + s3.wau_growth_rate / 100)) }
  let s5 :=
    if prev_wau > 0 then
      { s4 with wau_growth_rate := (((s4.wau : ℚ) - (prev_wau : ℚ)) / (prev_wau : ℚ)) * 100 }
    else s4
  let s6 := { s5 with morale := s5.morale - 0.5 }
  let s7 := if s6.velocity > 1.2 then { s6 with tech_debt := s6.tech_debt + 0.5 } else s6
  let s8 := update_market_conditions s7
  let (newCond, rng1) := generate_market_condition s8 s8.week rng
  let s9 :=
    match newCond with
    | some c => { s8 with active_market_conditions := s8.active_market_conditions ++ [c] }
    | none => s8
  let s10 :=
    if s9.action_history.length > 12 then { s9 with action_history := s9.action_history.drop 1 }
    else s9
  let (s11, rng2) :=
    if s10.tech_debt > 80 then
      let (u, r) := rng1.draw
      (if u < 0.1 then { s10 with incident_count := s10.incident_count + 1 } else s10, r)
    else (s10, rng1)
  (save_snapshot (update_derived_metrics s11), rng2)

/-! ### Action resolver (game/actions.rs) -/

/-- `calculate_refactor_impact` (returns debt reduction and velocity gain). -/
def calculate_refactor_impact (depth : RefactorDepth) (current_debt : ℚ) (rng : Rng) :
    (ℚ × ℚ) × Rng :=
  let base_reduction : ℚ :=
    match depth with
    | .surface => 10
    | .medium => 20
    | .deep => 35
  let debt_modifier : ℚ := if current_debt > 50 then 1.2 else 1
  let (u1, r1) := rng.draw
  let debt_reduction := base_reduction * debt_modifier * (0.8 + u1 * 0.4)
  let base_gain : ℚ :=
    match depth with
    | .surface => 0.05
    | .medium => 0.12
    | .deep => 0.2
  let (u2, r2) := r1.draw
  let velocity_gain := base_gain * (0.9 + u2 * 0.2)
  ((debt_reduction, velocity_gain), r2)

/-- `ExperimentResult` (insight prose omitted). -/
structure ExperimentResult where
  success : Bool
  effects : List StatEffect
deriving DecidableEq

/-- `calculate_experiment_outcome`. -/
def calculate_experiment_outcome (category : ExperimentType) (s : GameState) (rng : Rng) :
    ExperimentResult × Rng :=
  let (success, r1) := rng.genBool 0.6
  if success then
    match category with
    | .pricing =>
        let (u, r2) := r1.genRange 0 0.4
        let mrr_boost := s.mrr * 0.05 * (0.8 + u)
        (⟨true, [⟨"MRR", s.mrr, s.mrr + mrr_boost, mrr_boost⟩]⟩, r2)
    | .onboarding =>
        let (u, r2) := r1.genRange 0 0.4
        let wau_boost := (s.wau : ℚ) * 0.03 * (0.8 + u)
        (⟨true,
          [⟨"WAU", (s.wau : ℚ), (s.wau : ℚ) + wau_boost, wau_boost⟩,
           ⟨"Churn Rate", s.churn_rate, s.churn_rate * 0.95, s.churn_rate * (-0.05)⟩]⟩, r2)
    | .channel =>
        let (u, r2) := r1.genRange 0 0.4
        let rep_boost := 5 * (0.8 + u)
        (⟨true, [⟨"Reputation", s.reputation, s.reputation + rep_boost, rep_boost⟩]⟩, r2)
  else
    (⟨false, [⟨"Morale", s.morale, s.morale - 2, -2⟩]⟩, r1)

/-- `calculate_content_reach` (returns WAU gain and reputation gain). -/
def calculate_content_reach (content_type : ContentType) (reputation : ℚ) (rng : Rng) :
    (ℚ × ℚ) × Rng :=
  let base_wau : ℚ :=
    match content_type with
    | .blogPost => 2
    | .tutorial => 4
    | .caseStudy => 3
    | .video => 5
  let rep_modifier := reputation / 100
  let (u1, r1) := rng.draw
  let wau_gain := base_wau * (0.8 + rep_modifier) * (0.8 + u1 * 0.4)
  let base_rep : ℚ :=
    match content_type with
    | .blogPost => 2
    | .tutorial => 3
    | .caseStudy => 4
    | .video => 5
  let (u2, r2) := r1.draw
  let rep_gain := base_rep * (0.9 + u2 * 0.2)
  ((wau_gain, rep_gain), r2)

/-- `calculate_ad_effectiveness`. -/
def calculate_ad_effectiveness (channel : AdChannel) (budget market_saturation : ℚ)
    (rng : Rng) : ℚ × Rng :=
  let base_effectiveness : ℚ :=
    match channel with
    | .google => 0.8
    | .social => 1
    | .display => 0.6
    | .influencer => 1.2
  let saturation_penalty := market_saturation / 100
  let (u, r1) := rng.draw
  let effectiveness := base_effectiveness * (1 - saturation_penalty) * (0.8 + u * 0.4)
  (effectiveness * budget / 10000, r1)

/-- The Fundraise success chance before clamping:
`0.3 + reputation/200 + momentum/100` (resolve_action, Fundraise arm). -/
def fundraise_success_chance (s : GameState) : ℚ :=
  0.3 + s.reputation / 200 + s.momentum / 100

/-- `resolve_action`: apply one action's effects to the state. Customer-persona
creation is omitted (see the header comment: the canonical `GameState` has no
`customers` field, and the spec scopes personas out as flavor). -/
def resolve_action (s : GameState) (action : Action) (rng : Rng) :
    GameState × ActionResult × Rng :=
  match action with
  | .shipFeature quality =>
      let (jw, r1) :=
        match quality with
        | .quick => rng.genRange (-1.5) 1.5
        | .balanced => rng.genRange (-1.5) 1.5
        | .polish => rng.genRange (-1) 1
      let (jd, r2) :=
        match quality with
        | .quick => r1.genRange (-2) 2
        | .balanced => r1.genRange (-1) 1
        | .polish => r1.genRange (-1) 1
      let (_jm, r3) :=
        match quality with
        | .quick => r2.genRange (-3) 3
        | .balanced => r2.genRange (-2) 2
        | .polish => r2.genRange (-1) 1
      let (jmo, r4) :=
        match quality with
        | .quick => r3.genRange (-0.5) 0.5
        | .balanced => r3.genRange (-0.5) 0.5
        | .polish => r3.genRange (-1) 1
      let wau_boost : ℚ :=
        match quality with
        | .quick => 3 + jw
        | .balanced => 4 + jw
        | .polish => 2 + jw
      let debt_change : ℚ :=
        match quality with
        | .quick => 6 + jd
        | .balanced => 2 + jd
        | .polish => -3 + jd
      let morale_change : ℚ :=
        match quality with
        | .quick => -1 + jmo
        | .balanced => 1 + jmo
        | .polish => 3 + jmo
      let old_wau := s.wau
      let s1 := { s with wau := ratToU32 ((s.wau : ℚ) * (1 + wau_boost / 100)) }
      let e1 : StatEffect := ⟨"WAU", (old_wau : ℚ), (s1.wau : ℚ), ((s1.wau - old_wau : Nat) : ℚ)⟩
      let s2 := { s1 with tech_debt := s1.tech_debt + debt_change }
      let e2 : StatEffect := ⟨"Tech Debt", s1.tech_debt, s2.tech_debt, debt_change⟩
      let s3 := { s2 with morale := s2.morale + morale_change }
      let e3 : StatEffect := ⟨"Morale", s2.morale, s3.morale, morale_change⟩
      let s4 := { s3 with velocity := 1 - s3.tech_debt / 200 }
      let e4 : StatEffect := ⟨"Velocity", s3.velocity, s4.velocity, s4.velocity - s3.velocity⟩
      (s4, ⟨true, [e1, e2, e3, e4]⟩, r4)
  | .founderLedSales callCount =>
      let conversion_rate := 0.05 + s.reputation / 200
      let (new_mrr, r1) := (List.range callCount).foldl
        (fun (acc : ℚ × Rng) _ =>
          let (b, r) := acc.2.genBool conversion_rate
          if b then
            let (d, rr) := r.genRange 0 0.4
            (acc.1 + 500 * (0.8 + d), rr)
          else (acc.1, r))
        (0, rng)
      let s1 := { s with mrr := s.mrr + new_mrr }
      let e1 : StatEffect := ⟨"MRR", s.mrr, s1.mrr, new_mrr⟩
      let morale_cost := (callCount : ℚ) * 0.5
      let s2 := { s1 with morale := s1.morale - morale_cost }
      let e2 : StatEffect := ⟨"Morale", s1.morale, s2.morale, -morale_cost⟩
      let s3 := { s2 with reputation := s2.reputation + 1 }
      let e3 : StatEffect := ⟨"Reputation", s2.reputation, s3.reputation, 1⟩
      (s3, ⟨decide (new_mrr > 0), [e1, e2, e3]⟩, r1)
  | .hire =>
      let salary : ℚ := 10000
      let s1 := { s with burn := s.burn + salary }
      let e1 : StatEffect := ⟨"Monthly Burn", s.burn, s1.burn, salary⟩
      let s2 := { s1 with velocity := s1.velocity + 0.1 }
      let e2 : StatEffect := ⟨"Velocity", s1.velocity, s2.velocity, 0.1⟩
      let s3 := { s2 with morale := s2.morale + 5 }
      let e3 : StatEffect := ⟨"Morale", s2.morale, s3.morale, 5⟩
      (s3, ⟨true, [e1, e2, e3]⟩, rng)
  | .fundraise target =>
      let success_chance := fundraise_success_chance s
      let (success, r1) := rng.genBool (clampQ success_chance 0 0.8)
      if success then
        let dilution := (target / 5000000) * 20
        let s1 := { s with bank := s.bank + target }
        let e1 : StatEffect := ⟨"Bank", s.bank, s1.bank, target⟩
        let s2 := { s1 with founder_equity := s1.founder_equity - dilution }
        let e2 : StatEffect := ⟨"Founder Equity", s1.founder_equity, s2.founder_equity, -dilution⟩
        (s2, ⟨true, [e1, e2]⟩, r1)
      else
        let s1 := { s with morale := s.morale - 10 }
        let e1 : StatEffect := ⟨"Morale", s.morale, s1.morale, -10⟩
        (s1, ⟨false, [e1]⟩, r1)
  | .refactorCode depth =>
      let ((debt_reduction, velocity_gain), r1) := calculate_refactor_impact depth s.tech_debt rng
      let s1 := { s with tech_debt := s.tech_debt - debt_reduction }
      let e1 : StatEffect := ⟨"Tech Debt", s.tech_debt, s1.tech_debt, -debt_reduction⟩
      let s2 := { s1 with velocity := s1.velocity + velocity_gain }
      let e2 : StatEffect := ⟨"Velocity", s1.velocity, s2.velocity, velocity_gain⟩
      let base_cost : ℚ :=
        match depth with
        | .surface => 2
        | .medium => 5
        | .deep => 10
      let (u, r2) := r1.draw
      let morale_cost := base_cost * (0.9 + u * 0.2)
      let s3 := { s2 with morale := s2.morale - morale_cost }
      let e3 : StatEffect := ⟨"Morale", s2.morale, s3.morale, -morale_cost⟩
      (s3, ⟨true, [e1, e2, e3]⟩, r2)
  | .runExperiment category =>
      let (result, r1) := calculate_experiment_outcome category s rng
      let s1 := result.effects.foldl
        (fun (st : GameState) e =>
          if e.stat_name = "MRR" then { st with mrr := e.new_value }
          else if e.stat_name = "WAU" then { st with wau := ratToU32 e.new_value }
          else if e.stat_name = "Churn Rate" then { st with churn_rate := e.new_value }
          else if e.stat_name = "Morale" then { st with morale := e.new_value }
          else if e.stat_name = "Reputation" then { st with reputation := e.new_value }
          else st)
        s
      (s1, ⟨result.success, result.effects⟩, r1)
  | .contentLaunch content_type =>
      let ((wau_gain, rep_gain), r1) := calculate_content_reach content_type s.reputation rng
      let s1 := { s with wau := ratToU32 ((s.wau : ℚ) + wau_gain) }
      let e1 : StatEffect := ⟨"WAU", (s.wau : ℚ), (s1.wau : ℚ), wau_gain⟩
      let s2 := { s1 with reputation := s1.reputation + rep_gain }
      let e2 : StatEffect := ⟨"Reputation", s1.reputation, s2.reputation, rep_gain⟩
      (s2, ⟨true, [e1, e2]⟩, r1)
  | .devRel event_type =>
      let base_rep : ℚ :=
        match event_type with
        | .conference => 12
        | .podcast => 8
        | .openSource => 6
        | .workshop => 10
      let (u1, r1) := rng.draw
      let rep_gain := base_rep * (0.9 + u1 * 0.2)
      let (u2, r2) := r1.draw
      let wau_gain := rep_gain * 0.5 * (0.8 + u2 * 0.4)
      let s1 := { s with reputation := s.reputation + rep_gain }
      let e1 : StatEffect := ⟨"Reputation", s.reputation, s1.reputation, rep_gain⟩
      let s2 := { s1 with wau := ratToU32 ((s1.wau : ℚ) + wau_gain) }
      let e2 : StatEffect := ⟨"WAU", (s1.wau : ℚ), (s2.wau : ℚ), wau_gain⟩
      let (u3, r3) := r2.draw
      let morale_boost := 5 * (0.9 + u3 * 0.2)
      let s3 := { s2 with morale := s2.morale + morale_boost }
      let e3 : StatEffect := ⟨"Morale", s2.morale, s3.morale, morale_boost⟩
      (s3, ⟨true, [e1, e2, e3]⟩, r3)
  | .paidAds budget channel =>
      let market_saturation : ℚ := 20
      let (wau_gain, r1) := calculate_ad_effectiveness channel budget market_saturation rng
      let s1 := { s with wau := ratToU32 ((s.wau : ℚ) + wau_gain) }
      let e1 : StatEffect := ⟨"WAU", (s.wau : ℚ), (s1.wau : ℚ), wau_gain⟩
      let s2 := { s1 with bank := s1.bank - budget }
      let e2 : StatEffect := ⟨"Bank", s1.bank, s2.bank, -budget⟩
      (s2, ⟨decide (wau_gain > 0), [e1, e2]⟩, r1)
  | .coach focus =>
      let vm : ℚ × ℚ :=
        match focus with
        | .skills => (0.08, 2)
        | .morale => (0.02, 8)
        | .alignment => (0.05, 4)
        | .performance => (0.1, 3)
      let (u1, r1) := rng.draw
      let velocity_gain := vm.1 * (0.9 + u1 * 0.2)
      let s1 := { s with velocity := s.velocity + velocity_gain }
      let e1 : StatEffect := ⟨"Velocity", s.velocity, s1.velocity, velocity_gain⟩
      let (u2, r2) := r1.draw
      let morale_gain := vm.2 * (0.9 + u2 * 0.2)
      let s2 := { s1 with morale := s1.morale + morale_gain }
      let e2 : StatEffect := ⟨"Morale", s1.morale, s2.morale, morale_gain⟩
      (s2, ⟨true, [e1, e2]⟩, r2)
  | .fire reason =>
      let (u, r1) := rng.draw
      let burn_reduction := 8000 * (0.8 + u * 0.4)
      let s1 := { s with burn := s.burn - burn_reduction }
      let e1 : StatEffect := ⟨"Monthly Burn", s.burn, s1.burn, -burn_reduction⟩
      let mh : ℚ × ℚ :=
        match reason with
        | .performance => (-8, -0.05)
        | .culture => (-12, -0.08)
        | .budget => (-5, -0.02)
      let s2 := { s1 with morale := s1.morale + mh.1 }
      let e2 : StatEffect := ⟨"Morale", s1.morale, s2.morale, mh.1⟩
      let s3 := { s2 with velocity := s2.velocity + mh.2 }
      let e3 : StatEffect := ⟨"Velocity", s2.velocity, s3.velocity, mh.2⟩
      (s3, ⟨true, [e1, e2, e3]⟩, r1)
  | .complianceWork hours =>
      let (u1, r1) := rng.draw
      let risk_reduction := (hours : ℚ) * 2 * (0.9 + u1 * 0.2)
      let s1 := { s with compliance_risk := s.compliance_risk - risk_reduction }
      let e1 : StatEffect := ⟨"Compliance Risk", s.compliance_risk, s1.compliance_risk, -risk_reduction⟩
      let (u2, r2) := r1.draw
      let morale_cost := (hours : ℚ) * 0.3 * (0.9 + u2 * 0.2)
      let s2 := { s1 with morale := s1.morale - morale_cost }
      let e2 : StatEffect := ⟨"Morale", s1.morale, s2.morale, -morale_cost⟩
      (s2, ⟨true, [e1, e2]⟩, r2)
  | .incidentResponse =>
      let (u1, r1) := rng.draw
      let rep_loss := 5 * (0.8 + u1 * 0.4)
      let s1 := { s with reputation := s.reputation - rep_loss }
      let e1 : StatEffect := ⟨"Reputation", s.reputation, s1.reputation, -rep_loss⟩
      let (u2, r2) := r1.draw
      let morale_cost := 15 * (0.9 + u2 * 0.2)
      let s2 := { s1 with morale := s1.morale - morale_cost }
      let e2 : StatEffect := ⟨"Morale", s1.morale, s2.morale, -morale_cost⟩
      (s2, ⟨true, [e1, e2]⟩, r2)
  | .processImprovement =>
      let (u1, r1) := rng.draw
      let velocity_boost := 0.08 * (0.9 + u1 * 0.2)
      let s1 := { s with velocity := s.velocity + velocity_boost }
      let e1 : StatEffect := ⟨"Velocity", s.velocity, s1.velocity, velocity_boost⟩
      let (u2, r2) := r1.draw
      let morale_boost := 3 * (0.9 + u2 * 0.2)
      let s2 := { s1 with morale := s1.morale + morale_boost }
      let e2 : StatEffect := ⟨"Morale", s1.morale, s2.morale, morale_boost⟩
      (s2, ⟨true, [e1, e2]⟩, r2)
  | .takeBreak =>
      let s1 := { s with morale := s.morale + 15 }
      let e1 : StatEffect := ⟨"Morale", s.morale, s1.morale, 15⟩
      let s2 := { s1 with wau_growth_rate := s1.wau_growth_rate - 2 }
      let e2 : StatEffect := ⟨"WAU Growth", s1.wau_growth_rate, s2.wau_growth_rate, -2⟩
      (s2, ⟨true, [e1, e2]⟩, rng)

/-! ### Synergies (game/synergies.rs) -/

/-- enum `ActionType`: the kind of an action, parameters ignored. -/
inductive ActionType
  | shipFeature
  | founderLedSales
  | hire
  | fundraise
  | takeBreak
  | refactorCode
  | runExperiment
  | contentLaunch
  | devRel
  | paidAds
  | coach
  | fire
  | complianceWork
  | incidentResponse
  | processImprovement
deriving DecidableEq

/-- `get_action_type`. -/
def get_action_type : Action → ActionType
  | .shipFeature _ => .shipFeature
  | .founderLedSales _ => .founderLedSales
  | .hire => .hire
  | .fundraise _ => .fundraise
  | .takeBreak => .takeBreak
  | .refactorCode _ => .refactorCode
  | .runExperiment _ => .runExperiment
  | .contentLaunch _ => .contentLaunch
  | .devRel _ => .devRel
  | .paidAds _ _ => .paidAds
  | .coach _ => .coach
  | .fire _ => .fire
  | .complianceWork _ => .complianceWork
  | .incidentResponse => .incidentResponse
  | .processImprovement => .processImprovement

/-- `SynergyBonus`. -/
structure SynergyBonus where
  stat_name : String
  bonus_amount : ℚ
  is_multiplier : Bool
deriving DecidableEq

/-- `ActionSynergy` (name/description prose omitted). -/
structure ActionSynergy where
  id : String
  required_actions : List ActionType
  bonus_effects : List SynergyBonus
deriving DecidableEq

/-- `get_all_synergies`: the static synergy catalog. -/
def get_all_synergies : List ActionSynergy :=
  [⟨"launch_momentum", [.shipFeature, .contentLaunch], [⟨"WAU", 0.15, true⟩]⟩,
   ⟨"product_credibility", [.shipFeature, .devRel],
     [⟨"Reputation", 10, false⟩, ⟨"WAU", 0.05, true⟩]⟩,
   ⟨"feature_launch", [.shipFeature, .paidAds],
     [⟨"WAU", 0.20, true⟩, ⟨"Burn", -0.10, true⟩]⟩,
   ⟨"engineering_excellence", [.refactorCode, .coach], [⟨"Velocity", 0.2, false⟩]⟩,
   ⟨"technical_foundation", [.refactorCode, .processImprovement],
     [⟨"Velocity", 0.15, false⟩, ⟨"TechDebt", -10, false⟩]⟩,
   ⟨"data_driven_content", [.runExperiment, .contentLaunch], [⟨"Reputation", 0.10, true⟩]⟩,
   ⟨"credibility_boost", [.founderLedSales, .devRel], [⟨"Reputation", 10, false⟩]⟩,
   ⟨"sales_team", [.founderLedSales, .coach], [⟨"MRR", 0.10, true⟩]⟩,
   ⟨"community_building", [.contentLaunch, .devRel],
     [⟨"WAU", 0.20, true⟩, ⟨"Reputation", 15, false⟩]⟩,
   ⟨"integrated_marketing", [.contentLaunch, .paidAds], [⟨"WAU", 0.50, true⟩]⟩,
   ⟨"full_funnel", [.devRel, .paidAds], [⟨"WAU", 0.25, true⟩]⟩,
   ⟨"team_development", [.hire, .coach],
     [⟨"Velocity", 0.15, false⟩, ⟨"Morale", 10, false⟩]⟩,
   ⟨"scalable_operations", [.hire, .processImprovement],
     [⟨"Burn", -0.15, true⟩, ⟨"Velocity", 0.1, false⟩]⟩,
   ⟨"regulatory_excellence", [.complianceWork, .processImprovement],
     [⟨"ComplianceRisk", -20, false⟩]⟩,
   ⟨"incident_prevention", [.incidentResponse, .processImprovement],
     [⟨"TechDebt", -5, false⟩]⟩,
   ⟨"growth_capital", [.fundraise, .hire], [⟨"Velocity", 0.20, true⟩]⟩,
   ⟨"marketing_budget", [.fundraise, .paidAds], [⟨"WAU", 0.30, true⟩]⟩,
   ⟨"founder_wellness", [.takeBreak, .coach],
     [⟨"Morale", 20, false⟩, ⟨"Reputation", 5, false⟩]⟩,
   ⟨"team_restructuring", [.fire, .hire],
     [⟨"Velocity", 0.1, false⟩, ⟨"Morale", -5, false⟩]⟩,
   ⟨"optimized_ads", [.runExperiment, .paidAds], [⟨"WAU", 0.15, true⟩]⟩]

/-- `check_action_synergies`: a synergy fires when its whole required kind-set
occurs among the turn's action kinds (the source's `HashSet` is embedded as
list membership, which has the same contains-semantics). -/
def check_action_synergies (actions : List Action) : List ActionSynergy :=
  let action_types := actions.map get_action_type
  get_all_synergies.filter
    (fun synergy => synergy.required_actions.all (fun req => action_types.contains req))

/-- Helper `apply_bonus`. -/
def apply_bonus (value : ℚ) (bonus : SynergyBonus) : ℚ :=
  if bonus.is_multiplier then value * (1 + bonus.bonus_amount) else value + bonus.bonus_amount

/-- `apply_synergy_bonuses` (defined in game/synergies.rs; `take_turn` never
calls it — see the C3 theorem). -/
def apply_synergy_bonuses (s : GameState) (synergies : List ActionSynergy) : GameState :=
  let s1 := synergies.foldl
    (fun (st : GameState) synergy =>
      synergy.bonus_effects.foldl
        (fun (st : GameState) bonus =>
          if bonus.stat_name = "WAU" then
            { st with wau := ratToU32 (max 0 (apply_bonus (st.wau : ℚ) bonus) + 1/2) }
          else if bonus.stat_name = "MRR" then
            { st with mrr := max 0 (apply_bonus st.mrr bonus) }
          else if bonus.stat_name = "Burn" then
            { st with burn := max 0 (apply_bonus st.burn bonus) }
          else if bonus.stat_name = "Velocity" then
            { st with velocity := clampQ (apply_bonus st.velocity bonus) 0 5 }
          else if bonus.stat_name = "Morale" then
            { st with morale := clampQ (apply_bonus st.morale bonus) 0 100 }
          else if bonus.stat_name = "Reputation" then
            { st with reputation := clampQ (apply_bonus st.reputation bonus) 0 100 }
          else if bonus.stat_name = "TechDebt" then
            { st with tech_debt := clampQ (apply_bonus st.tech_debt bonus) 0 100 }
          else if bonus.stat_name = "ComplianceRisk" then
            { st with compliance_risk := clampQ (apply_bonus st.compliance_risk bonus) 0 100 }
          else st)
        st)
    s
  update_derived_metrics s1

/-- The category-classification in `detect_specialization_path`. -/
def actionCategory : ActionType → String
  | .shipFeature => "product"
  | .refactorCode => "product"
  | .runExperiment => "product"
  | .founderLedSales => "growth"
  | .contentLaunch => "growth"
  | .devRel => "growth"
  | .paidAds => "growth"
  | .complianceWork => "ops"
  | .incidentResponse => "ops"
  | .processImprovement => "ops"
  | .hire => "team"
  | .coach => "team"
  | .fire => "team"
  | .fundraise => "other"
  | .takeBreak => "other"

/-- `detect_specialization_path` over the trailing 8 weeks of the action
history plus the current turn. -/
def detect_specialization_path (action_history : List (Nat × List Action))
    (recent_actions : List Action) : Option SpecializationPath :=
  let recent_history := (action_history.reverse.take 8)
  let all_actions := (recent_history.foldl (fun acc p => acc ++ p.2) []) ++ recent_actions
  if all_actions.isEmpty then none
  else
    let total : ℚ := (all_actions.length : ℚ)
    let countCat (cat : String) : ℚ :=
      ((all_actions.filter (fun a => actionCategory (get_action_type a) = cat)).length : ℚ)
    let product_pct := countCat "product" / total
    let growth_pct := countCat "growth" / total
    let ops_pct := countCat "ops" / total
    let team_pct := countCat "team" / total
    let customer_pct := growth_pct + team_pct * 0.5
    if product_pct ≥ 0.6 then some .productExcellence
    else if growth_pct ≥ 0.6 then some .growthHacking
    else if ops_pct ≥ 0.6 then some .operationalEfficiency
    else if customer_pct ≥ 0.6 then some .customerObsessed
    else none

/-! ### Compounding effects (game/compounding.rs) -/

/-- `StatBonus`. -/
structure StatBonus where
  stat_name : String
  bonus_amount : ℚ
  is_multiplier : Bool
deriving DecidableEq

/-- `CompoundingBonus` (name/message prose omitted). -/
structure CompoundingBonus where
  effect_id : String
  bonuses : List StatBonus
deriving DecidableEq

/-- `count_consecutive_weeks`: length of the trailing unbroken run, within the
lookback window, on which the predicate holds. -/
def count_consecutive_weeks (history : List WeekSnapshot) (max_lookback : Nat)
    (cond : WeekSnapshot → Bool) : Nat :=
  let lookback := min max_lookback history.length
  let recent := history.drop (history.length - lookback)
  (recent.reverse.takeWhile cond).length

/-- `runway_months > x` under the `Option` embedding (`INFINITY > x` is true). -/
def runwayGt (r : Option ℚ) (x : ℚ) : Bool :=
  match r with
  | none => true
  | some q => decide (q > x)

/-- `check_compounding_effects`. -/
def check_compounding_effects (s : GameState) (history_weeks : Nat) : List CompoundingBonus :=
  let b1 : List CompoundingBonus :=
    if s.tech_debt < 25 ∧ s.velocity > 0.8 then
      let weeks := count_consecutive_weeks s.history history_weeks (fun snap => decide (snap.momentum > 0.7))
      if weeks ≥ 4 then
        let strength := min ((weeks : ℚ) / 4) 2
        [⟨"engineering_excellence",
          [⟨"Velocity", 0.05 * strength, true⟩, ⟨"Morale", 5 * strength, false⟩]⟩]
      else []
    else []
  let b2 : List CompoundingBonus :=
    if s.nps > 60 ∧ s.wau > 200 then
      let weeks := count_consecutive_weeks s.history history_weeks (fun snap => decide (snap.reputation > 60))
      if weeks ≥ 6 then
        let strength := min ((weeks : ℚ) / 6) 2
        [⟨"customer_love",
          [⟨"WAU Growth", 3 * strength, false⟩, ⟨"Churn Rate", -2 * strength, false⟩]⟩]
      else []
    else []
  let b3 : List CompoundingBonus :=
    if s.morale > 75 then
      let weeks := count_consecutive_weeks s.history history_weeks (fun snap => decide (snap.morale > 75))
      if weeks ≥ 8 then
        let strength := min ((weeks : ℚ) / 8) 2
        [⟨"strong_culture",
          [⟨"Velocity", 0.1 * strength, true⟩, ⟨"Reputation", 5 * strength, false⟩]⟩]
      else []
    else []
  let b4 : List CompoundingBonus :=
    if runwayGt s.runway_months 12 then
      let burn_efficiency := if s.burn > 0 then s.mrr / s.burn else 0
      if burn_efficiency > 0.5 then
        let weeks := count_consecutive_weeks s.history history_weeks
          (fun snap => f64DivGt snap.bank snap.burn 3)
        if weeks ≥ 8 then
          let strength := min ((weeks : ℚ) / 8) 2
          [⟨"financial_discipline",
            [⟨"Reputation", 10 * strength, false⟩, ⟨"Morale", 5 * strength, false⟩]⟩]
        else []
      else []
    else []
  let b5 : List CompoundingBonus :=
    if s.wau_growth_rate > 8 ∧ s.churn_rate < 8 then
      let weeks := count_consecutive_weeks s.history history_weeks
        (fun snap => if 10 ≤ snap.wau then decide (snap.wau > snap.wau - 10) else false)
      if weeks ≥ 6 then
        let strength := min ((weeks : ℚ) / 6) 2
        [⟨"momentum_master",
          [⟨"WAU Growth", 2 * strength, false⟩, ⟨"Reputation", 8 * strength, false⟩]⟩]
      else []
    else []
  let b6 : List CompoundingBonus :=
    if s.morale > 65 ∧ s.velocity > 0.7 then
      let weeks := count_consecutive_weeks s.history history_weeks (fun snap => decide (snap.morale > 60))
      if weeks ≥ 10 then
        let strength := min ((weeks : ℚ) / 10) 1.5
        [⟨"sustainable_pace",
          [⟨"Morale Decay", -0.3 * strength, false⟩, ⟨"Velocity", 0.05 * strength, true⟩]⟩]
      else []
    else []
  b1 ++ b2 ++ b3 ++ b4 ++ b5 ++ b6

/-- `apply_compounding_bonuses` (ends by re-deriving clamped metrics). -/
def apply_compounding_bonuses (s : GameState) (bonuses : List CompoundingBonus) : GameState :=
  let s1 := bonuses.foldl
    (fun (st : GameState) bonus =>
      bonus.bonuses.foldl
        (fun (st : GameState) sb =>
          if sb.stat_name = "Velocity" then
            { st with velocity :=
                if sb.is_multiplier then st.velocity * (1 + sb.bonus_amount)
                else st.velocity + sb.bonus_amount }
          else if sb.stat_name = "Morale" then
            { st with morale := st.morale + sb.bonus_amount }
          else if sb.stat_name = "WAU Growth" then
            { st with wau_growth_rate := st.wau_growth_rate + sb.bonus_amount }
          else if sb.stat_name = "Churn Rate" then
            { st with churn_rate := st.churn_rate + sb.bonus_amount }
          else if sb.stat_name = "Reputation" then
            { st with reputation := st.reputation + sb.bonus_amount }
          else if sb.stat_name = "Morale Decay" then
            { st with morale := st.morale + |sb.bonus_amount| * 2 }
          else st)
        st)
    s
  update_derived_metrics s1

/-! ### Progression (game/progression.rs) -/

/-- `action_unlock_key`: the stable per-kind key string. -/
def action_unlock_key : Action → String
  | .refactorCode _ => "RefactorCode"
  | .contentLaunch _ => "ContentLaunch"
  | .coach _ => "Coach"
  | .runExperiment _ => "RunExperiment"
  | .complianceWork _ => "ComplianceWork"
  | .devRel _ => "DevRel"
  | .paidAds _ _ => "PaidAds"
  | .processImprovement => "ProcessImprovement"
  | .fire _ => "Fire"
  | .incidentResponse => "IncidentResponse"
  | .shipFeature _ => "ShipFeature"
  | .founderLedSales _ => "FounderLedSales"
  | .hire => "Hire"
  | .fundraise _ => "Fundraise"
  | .takeBreak => "TakeBreak"

/-- enum `UnlockCondition` (only the two arms the catalog uses). -/
inductive UnlockCondition
  | reachWeek (week : Nat)
  | achieveMetric (metric : String) (value : ℚ)

/-- `check_unlocks`: the unlockables catalog with its conditions. -/
def check_unlocks (s : GameState) : List Action :=
  let unlockables : List (Action × UnlockCondition) :=
    [(.refactorCode .surface, .reachWeek 5),
     (.contentLaunch .blogPost, .reachWeek 5),
     (.coach .skills, .reachWeek 5),
     (.runExperiment .pricing, .achieveMetric "wau" 500),
     (.complianceWork 4, .reachWeek 9),
     (.devRel .conference, .reachWeek 13),
     (.paidAds 5000 .social, .reachWeek 13),
     (.processImprovement, .reachWeek 13),
     (.fire .performance, .achieveMetric "team_size" 1),
     (.incidentResponse, .achieveMetric "incident_count" 1)]
  unlockables.foldl
    (fun acc p =>
      let key := action_unlock_key p.1
      if s.unlocked_actions.contains key then acc
      else
        let should_unlock :=
          match p.2 with
          | .reachWeek w => decide (s.week ≥ w)
          | .achieveMetric metric v =>
              if metric = "reputation" then decide (s.reputation ≥ v)
              else if metric = "wau" then decide ((s.wau : ℚ) ≥ v)
              else if metric = "mrr" then decide (s.mrr ≥ v)
              else if metric = "team_size" then decide ((s.team_size : ℚ) ≥ v)
              else if metric = "incident_count" then decide ((s.incident_count : ℚ) ≥ v)
              else false
        if should_unlock then acc ++ [p.1] else acc)
    []

/-- `get_available_actions`: the core action menu plus variants of each
unlocked kind, de-duplicated. -/
def get_available_actions (s : GameState) : List Action :=
  let base : List Action :=
    [.shipFeature .quick, .shipFeature .balanced, .shipFeature .polish,
     .founderLedSales 3, .founderLedSales 5,
     .hire, .fundraise 250000, .fundraise 500000, .takeBreak]
  let pushUnique (l : List Action) (a : Action) : List Action :=
    if l.contains a then l else l ++ [a]
  s.unlocked_actions.foldl
    (fun acc key =>
      if key = "RefactorCode" then
        pushUnique (pushUnique acc (.refactorCode .surface)) (.refactorCode .deep)
      else if key = "ContentLaunch" then
        pushUnique (pushUnique acc (.contentLaunch .blogPost)) (.contentLaunch .tutorial)
      else if key = "Coach" then pushUnique acc (.coach .skills)
      else if key = "RunExperiment" then pushUnique acc (.runExperiment .pricing)
      else if key = "ComplianceWork" then pushUnique acc (.complianceWork 8)
      else if key = "DevRel" then pushUnique acc (.devRel .conference)
      else if key = "PaidAds" then pushUnique acc (.paidAds 20000 .google)
      else if key = "ProcessImprovement" then pushUnique acc .processImprovement
      else if key = "Fire" then pushUnique acc (.fire .performance)
      else if key = "IncidentResponse" then pushUnique acc .incidentResponse
      else acc)
    base

/-- `MilestoneEvent` (title/description/rewards prose omitted). -/
structure MilestoneEvent where
  week : Nat
deriving DecidableEq

/-- `check_milestone_events`. -/
def check_milestone_events (s : GameState) : Option MilestoneEvent :=
  if s.week = 12 ∨ s.week = 26 ∨ s.week = 39 ∨ s.week = 52 then some ⟨s.week⟩ else none

/-! ### Event engine cooldown machinery (game/events_enhanced.rs)

`check_for_events` walks a fixed catalog of conditional events. For every
entry the source repeats one pattern:

  if prereq(state) && rng.gen_bool(p) && can_trigger_event(cooldowns, id) {
      events.push(...);
      state.event_cooldowns.insert(id, cooldown_weeks);
  }

after which the candidate list is truncated to at most 2 and every nonzero
cooldown is decremented once. The per-entry prerequisite and probability roll
are embedded as one oracle `fires : String → Bool` (the claims quantify over
them); the catalog skeleton `eventCatalog` lists the source's exact
(id, cooldown_weeks) pairs. -/

/-- `can_trigger_event`. -/
def can_trigger_event (cooldowns : CooldownMap) (event_id : String) : Bool :=
  match lookupCd cooldowns event_id with
  | none => true
  | some remaining => remaining == 0

/-- One catalog entry's identity and cooldown. -/
structure EventRule where
  id : String
  cooldown_weeks : Nat
deriving DecidableEq

/-- The (id, cooldown_weeks) skeleton of the `check_for_events` catalog, in
source order. -/
def eventCatalog : List EventRule :=
  [⟨"tech_debt_crisis", 8⟩, ⟨"viral_moment", 12⟩, ⟨"major_client_deal", 10⟩,
   ⟨"customer_churn_warning", 6⟩, ⟨"big_logo_signs", 8⟩, ⟨"customer_champion", 10⟩,
   ⟨"competitor_feature_launch", 8⟩, ⟨"pricing_war", 10⟩, ⟨"competitor_funding", 12⟩,
   ⟨"competitor_acquisition_opportunity", 16⟩, ⟨"talent_poaching", 10⟩,
   ⟨"competitor_pivot", 20⟩, ⟨"vc_offer", 16⟩, ⟨"key_employee_burnout", 12⟩,
   ⟨"competitor_launch", 6⟩, ⟨"pivot_opportunity", 16⟩, ⟨"acquisition_offer", 20⟩,
   ⟨"key_partnership", 12⟩, ⟨"team_conflict", 10⟩, ⟨"press_opportunity", 14⟩,
   ⟨"technical_rewrite", 18⟩, ⟨"competitor_acquisition", 15⟩, ⟨"regulatory_audit", 12⟩,
   ⟨"viral_moment_gone_wrong", 10⟩, ⟨"founder_health_crisis", 20⟩, ⟨"press_mention", 4⟩,
   ⟨"customer_testimonial", 6⟩, ⟨"competitor_failure", 8⟩, ⟨"talent_joins", 10⟩,
   ⟨"server_outage", 3⟩, ⟨"customer_complaint", 5⟩, ⟨"competitor_feature", 7⟩,
   ⟨"key_person_sick", 9⟩, ⟨"market_shift", 12⟩, ⟨"new_regulation", 15⟩,
   ⟨"industry_trend", 10⟩]

/-- The catalog walk: collect candidates and set each fired event's cooldown
at fire time. -/
def runEventPass (catalog : List EventRule) (fires : String → Bool)
    (cooldowns : CooldownMap) : List String × CooldownMap :=
  catalog.foldl
    (fun acc rule =>
      if fires rule.id && can_trigger_event acc.2 rule.id then
        (acc.1 ++ [rule.id], cdInsert acc.2 rule.id rule.cooldown_weeks)
      else acc)
    ([], cooldowns)

/-- The end-of-pass decrement: every nonzero cooldown goes down by one. -/
def decrement_cooldowns (m : CooldownMap) : CooldownMap :=
  m.map (fun p => (p.1, if 0 < p.2 then p.2 - 1 else p.2))

/-- This week's candidate list (before the random truncation to 2, which only
removes entries). -/
def eventCandidates (catalog : List EventRule) (fires : String → Bool)
    (cooldowns : CooldownMap) : List String :=
  (runEventPass catalog fires cooldowns).1

/-- The cooldown map after a full weekly evaluation pass. -/
def passCooldowns (catalog : List EventRule) (fires : String → Bool)
    (cooldowns : CooldownMap) : CooldownMap :=
  decrement_cooldowns (runEventPass catalog fires cooldowns).2

/-- Cooldown map at the start of week `w`, iterating weekly passes with a
per-week oracle. -/
def cooldownsAt (catalog : List EventRule) (fires : Nat → String → Bool)
    (cd0 : CooldownMap) : Nat → CooldownMap
  | 0 => cd0
  | w + 1 => passCooldowns catalog (fires w) (cooldownsAt catalog fires cd0 w)

/-- Candidate list of week `w` of the iterated system. -/
def candidatesAt (catalog : List EventRule) (fires : Nat → String → Bool)
    (cd0 : CooldownMap) (w : Nat) : List String :=
  eventCandidates catalog (fires w) (cooldownsAt catalog fires cd0 w)

/-! ### Turn orchestrator (lib.rs `take_turn`) -/

/-- The turn output (`TurnResult`). The `insights`/`warnings`/`events` fields
are read-only collaborator outputs computed from the final state (the spec
scopes the first two out as prose; `check_for_events` is modelled above and in
lib.rs is handed an immutable borrow, so it cannot alter the returned state);
they are omitted here. -/
structure TurnResult where
  state : GameState
  synergies : List ActionSynergy
  compounding_bonuses : List CompoundingBonus
  market_conditions : List MarketCondition
  unlocked_actions : List Action
  milestone_event : Option MilestoneEvent
  specialization_bonus : Option SpecializationPath

/-- The body of `take_turn` (lib.rs) past its two validation checks.
Notes on source mismatches kept as-is here:
* the unlock check compares `format!("{:?}", action)` against
  `get_available_actions`, which returns `Vec<Action>`; it is embedded as
  membership of the action itself, the type-correct reading;
* the summed focus cost is a `u8`; release-mode Rust wraps on overflow, so the
  sum is taken `% 256`;
* the per-action `get_action_effectiveness_modifier` is computed and then
  dropped (`let _result = resolve_action(...)`, marked TODO in the source);
* `check_action_synergies` output is returned but `apply_synergy_bonuses` is
  never invoked (marked TODO in the source);
* `detect_specialization_path` is called on `&state.history`, which does not
  have the parameter's type; the embedding passes `action_history`, the only
  type-correct field;
* market conditions are aged-and-rolled here and then again inside
  `advance_week`. -/
def turn_pipeline (state : GameState) (actions : List Action) (rng : Rng) : TurnResult :=
  let market_modifiers := get_active_conditions state
  let resolved := actions.foldl
    (fun (acc : GameState × Rng) a =>
      let _modifier := get_action_effectiveness_modifier a market_modifiers
      let r := resolve_action acc.1 a acc.2
      (r.1, r.2.2))
    (state, rng)
  let s1 := resolved.1
  let rng1 := resolved.2
  let s2 := { s1 with action_history := s1.action_history ++ [(s1.week, actions)] }
  let synergies := check_action_synergies actions
  let specialization_bonus := detect_specialization_path s2.action_history actions
  let compounding_bonuses := check_compounding_effects s2 12
  let s3 := apply_compounding_bonuses s2 compounding_bonuses
  let s4 := apply_churn s3
  let s5 := update_nps s4
  let s6 := update_escape_velocity_progress s5
  let s7 := update_market_conditions s6
  let gen := generate_market_condition s7 s7.week rng1
  let rng2 := gen.2
  let s8 :=
    match gen.1 with
    | some condition =>
        { s7 with active_market_conditions := s7.active_market_conditions ++ [condition] }
    | none => s7
  let milestone_event := check_milestone_events s8
  let new_unlocks := check_unlocks s8
  let s9 := (advance_week s8 rng2).1
  let s10 := update_derived_metrics s9
  { state := s10
    synergies := synergies
    compounding_bonuses := compounding_bonuses
    market_conditions := market_modifiers
    unlocked_actions := new_unlocks
    milestone_event := milestone_event
    specialization_bonus := specialization_bonus }

def take_turn (state : GameState) (actions : List Action) (rng : Rng) :
    Except String TurnResult :=
  if ¬ actions.all (fun a => (get_available_actions state).contains a) then
    Except.error "not unlocked"
  else if ((actions.map Action.focus_cost).sum) % 256 > state.focus_slots then
    Except.error "not enough focus slots"
  else
    Except.ok (turn_pipeline state actions rng)

/-! ## Theorems -/

theorem le_clampQ (x lo hi : ℚ) : lo ≤ clampQ x lo hi := le_max_left _ _

theorem clampQ_le (x lo hi : ℚ) (h : lo ≤ hi) : clampQ x lo hi ≤ hi :=
  max_le h (min_le_right _ _)

/-- The bounded-stat invariant of the spec: morale, reputation, tech_debt,
compliance_risk, churn_rate in [0, 100], nps in [−100, 100], velocity in the
configured clamp band [0.1, 3]. -/
def stat_bounds_ok (s : GameState) : Prop :=
  0 ≤ s.morale ∧ s.morale ≤ 100
  ∧ 0 ≤ s.reputation ∧ s.reputation ≤ 100
  ∧ 0 ≤ s.tech_debt ∧ s.tech_debt ≤ 100
  ∧ 0 ≤ s.compliance_risk ∧ s.compliance_risk ≤ 100
  ∧ 0 ≤ s.churn_rate ∧ s.churn_rate ≤ 100
  ∧ -100 ≤ s.nps ∧ s.nps ≤ 100
  ∧ 0.1 ≤ s.velocity ∧ s.velocity ≤ 3

/-- A successful turn's state satisfies the invariant; a rejection carries no
state at all. -/
def turn_state_bounds : Except String TurnResult → Prop
  | .ok out => stat_bounds_ok out.state
  | .error _ => True

/-- All the clamped bounds hold of any `update_derived_metrics` output. -/
theorem update_derived_metrics_bounds (s : GameState) :
    stat_bounds_ok (update_derived_metrics s) := by
  simp only [stat_bounds_ok, update_derived_metrics]
  refine ⟨le_clampQ _ _ _, clampQ_le _ _ _ (by norm_num), le_clampQ _ _ _, clampQ_le _ _ _ (by norm_num),
    le_clampQ _ _ _, clampQ_le _ _ _ (by norm_num), le_clampQ _ _ _, clampQ_le _ _ _ (by norm_num),
    le_clampQ _ _ _, clampQ_le _ _ _ (by norm_num), le_clampQ _ _ _, clampQ_le _ _ _ (by norm_num),
    le_clampQ _ _ _, clampQ_le _ _ _ (by norm_num)⟩

/-- C9: `check_defeat` resolves simultaneous defeat conditions in a fixed
priority order: OutOfMoney (bank ≤ 0 or runway ≤ 0) before FounderBurnout
(morale ≤ 0) before ReputationDestroyed (reputation ≤ 10); in particular a
state with bank ≤ 0 and morale ≤ 0 reports OutOfMoney. -/
theorem c9_defeat_priority (s : GameState) :
    ((s.bank ≤ 0 ∨ runwayNonpos s.runway_months = true) →
        check_defeat s = some DefeatCondition.outOfMoney)
    ∧ (¬(s.bank ≤ 0 ∨ runwayNonpos s.runway_months = true) → s.morale ≤ 0 →
        check_defeat s = some DefeatCondition.founderBurnout)
    ∧ (¬(s.bank ≤ 0 ∨ runwayNonpos s.runway_months = true) → ¬(s.morale ≤ 0) →
        s.reputation ≤ 10 → check_defeat s = some DefeatCondition.reputationDestroyed)
    ∧ (s.bank ≤ 0 → s.morale ≤ 0 → check_defeat s = some DefeatCondition.outOfMoney) := by
  simp only [check_defeat]
  refine ⟨fun h => ?_, fun h hm => ?_, fun h hm hr => ?_, fun hb _hm => ?_⟩
  · rw [if_pos h]
  · rw [if_neg h, if_pos hm]
  · rw [if_neg h, if_neg hm, if_pos hr]
  · rw [if_pos (Or.inl hb)]

/-- Witness for C9 at concrete states: bank and morale both nonpositive yields
OutOfMoney; burnout and reputation arms are reachable as well. -/
theorem c9_defeat_priority_witness :
    check_defeat { GameState.new .indieBootstrap with bank := -5, morale := -1 }
      = some DefeatCondition.outOfMoney
    ∧ check_defeat { GameState.new .indieBootstrap with morale := -1 }
      = some DefeatCondition.founderBurnout
    ∧ check_defeat { GameState.new .indieBootstrap with reputation := 5 }
      = some DefeatCondition.reputationDestroyed :=
  ⟨(c9_defeat_priority _).2.2.2 (by norm_num) (by norm_num),
   (c9_defeat_priority _).2.1 (by with_unfolding_all decide) (by norm_num),
   (c9_defeat_priority _).2.2.1 (by with_unfolding_all decide)
     (by with_unfolding_all decide) (by norm_num)⟩

/-- C6 (amended): after the escape-velocity update, if any of the four gates
fails then the streak is 0 regardless of its previous value; if all four hold
and the previous streak is below 255, the streak increases by exactly one.
(At 255 the u8 counter wraps to 0 — see the counterexample.) -/
theorem c6_streak_update (s : GameState) :
    (¬(s.mrr ≥ s.burn ∧ s.wau_growth_rate ≥ 10 ∧ s.nps ≥ 30 ∧ s.morale > 40) →
        (update_escape_velocity_progress s).escape_velocity_progress.streak_weeks = 0)
    ∧ ((s.mrr ≥ s.burn ∧ s.wau_growth_rate ≥ 10 ∧ s.nps ≥ 30 ∧ s.morale > 40) →
        s.escape_velocity_progress.streak_weeks < 255 →
        (update_escape_velocity_progress s).escape_velocity_progress.streak_weeks
          = s.escape_velocity_progress.streak_weeks + 1) := by
  simp only [update_escape_velocity_progress, EscapeVelocityProgress.all_conditions_met]
  constructor
  · intro h
    rw [if_neg]
    simp only [Bool.and_eq_true, decide_eq_true_eq]
    tauto
  · intro h hlt
    rw [if_pos]
    · exact Nat.mod_eq_of_lt (by omega)
    · simp only [Bool.and_eq_true, decide_eq_true_eq]
      tauto

/-- Witness for C6: a failing-gate state resets to 0 and a passing-gate state
with streak 5 advances to 6. -/
theorem c6_streak_update_witness :
    (update_escape_velocity_progress
        (GameState.new .indieBootstrap)).escape_velocity_progress.streak_weeks = 0
    ∧ (update_escape_velocity_progress
        { GameState.new .indieBootstrap with
            mrr := 8000, wau_growth_rate := 10, nps := 30, morale := 50,
            escape_velocity_progress :=
              ⟨true, true, true, true, 5⟩ }).escape_velocity_progress.streak_weeks = 5 + 1 :=
  ⟨(c6_streak_update _).1 (by with_unfolding_all decide),
   (c6_streak_update _).2 (by with_unfolding_all decide) (by with_unfolding_all decide)⟩

/-- C6 counterexample: with all four gates true and a previous streak of 255,
the u8 counter wraps: the new streak is 0, not 256. -/
theorem c6_counterexample :
    (update_escape_velocity_progress
        { GameState.new .indieBootstrap with
            mrr := 8000, wau_growth_rate := 10, nps := 30, morale := 50,
            escape_velocity_progress := ⟨true, true, true, true, 255⟩
        }).escape_velocity_progress.all_conditions_met = true
    ∧ (update_escape_velocity_progress
        { GameState.new .indieBootstrap with
            mrr := 8000, wau_growth_rate := 10, nps := 30, morale := 50,
            escape_velocity_progress := ⟨true, true, true, true, 255⟩
        }).escape_velocity_progress.streak_weeks = 0 := by
  constructor
  · with_unfolding_all decide
  · with_unfolding_all decide

/-- C10: the Fundraise success probability is
`0.3 + reputation/200 + momentum/100` clamped to `[0, 0.8]`: it is a valid
Bernoulli parameter (within `[0, 1]`), never exceeds 0.8, and is exactly the
probability `resolve_action` draws against. -/
theorem c10_fundraise_chance (s : GameState) (t : ℚ) (rng : Rng) :
    0 ≤ clampQ (fundraise_success_chance s) 0 0.8
    ∧ clampQ (fundraise_success_chance s) 0 0.8 ≤ 0.8
    ∧ clampQ (fundraise_success_chance s) 0 0.8 ≤ 1
    ∧ ((resolve_action s (.fundraise t) rng).2.1).success
        = decide (frac (rng.stream rng.idx) < clampQ (fundraise_success_chance s) 0 0.8) := by
  refine ⟨le_clampQ _ _ _, clampQ_le _ _ _ (by norm_num),
    (clampQ_le _ _ _ (by norm_num)).trans (by norm_num), ?_⟩
  simp only [resolve_action, Rng.genBool, Rng.draw]
  split <;> simp_all

/-- C5 (amended): resolving `ShipFeature(Quick)` from wau = 100 yields, for
every possible random draw, a new wau in the integer range `[101, 104]`: the
real-valued target `100·(1 + boost/100)` lies in `[101.5, 104.5)` for a boost
of `3.0 ± 1.5`, but the `as u32` cast truncates it. -/
theorem c5_ship_quick_wau_bounds (s : GameState) (rng : Rng) (h : s.wau = 100) :
    101 ≤ (resolve_action s (.shipFeature .quick) rng).1.wau
    ∧ (resolve_action s (.shipFeature .quick) rng).1.wau ≤ 104 := by
  have hu0 := frac_nonneg (rng.stream rng.idx)
  have hu1 := frac_lt_one (rng.stream rng.idx)
  simp only [resolve_action, Rng.genRange, Rng.draw, h, ratToU32, Nat.cast_ofNat]
  set u := frac (rng.stream rng.idx) with hu
  have hx1 : (101.5 : ℚ) ≤ (100 : ℚ) * (1 + (3 + (-1.5 + u * (1.5 - -1.5))) / 100) := by
    nlinarith
  have hx2 : (100 : ℚ) * (1 + (3 + (-1.5 + u * (1.5 - -1.5))) / 100) < 104.5 := by
    nlinarith
  have hf1 : (101 : ℤ) ≤ ⌊(100 : ℚ) * (1 + (3 + (-1.5 + u * (1.5 - -1.5))) / 100)⌋ := by
    rw [Int.le_floor]
    calc ((101 : ℤ) : ℚ) = 101 := by norm_num
    _ ≤ 101.5 := by norm_num
    _ ≤ _ := hx1
  have hf2 : ⌊(100 : ℚ) * (1 + (3 + (-1.5 + u * (1.5 - -1.5))) / 100)⌋ < 105 := by
    rw [Int.floor_lt]
    calc (100 : ℚ) * (1 + (3 + (-1.5 + u * (1.5 - -1.5))) / 100) < 104.5 := hx2
    _ ≤ ((105 : ℤ) : ℚ) := by norm_num
  omega

/-- Witness for C5 at the fresh IndieBootstrap state (wau = 100) and a
concrete oracle. -/
theorem c5_ship_quick_wau_bounds_witness :
    101 ≤ (resolve_action (GameState.new .indieBootstrap) (.shipFeature .quick)
      ⟨fun _ => 1/2, 0⟩).1.wau
    ∧ (resolve_action (GameState.new .indieBootstrap) (.shipFeature .quick)
      ⟨fun _ => 1/2, 0⟩).1.wau ≤ 104 :=
  c5_ship_quick_wau_bounds _ _ (by with_unfolding_all decide)

/-- C5 counterexample: with draw `u = 1/10` the boost is `1.8`, the real
target is `101.8`, and the truncating cast gives wau = 101, strictly below
the claim's lower bound `100·(1 + 1.5/100) = 101.5`. -/
theorem c5_counterexample :
    (GameState.new .indieBootstrap).wau = 100
    ∧ (((resolve_action (GameState.new .indieBootstrap) (.shipFeature .quick)
          ⟨fun _ => 1/10, 0⟩).1.wau : ℚ)) < 100 * (1 + 1.5 / 100) := by
  constructor
  · with_unfolding_all decide
  · with_unfolding_all decide

/-- C8: every state returned by a successful `take_turn` satisfies the
bounded-stat invariant: morale, reputation, tech_debt, compliance_risk and
churn_rate in [0, 100], nps in [−100, 100], velocity in the configured
clamp band [0.1, 3]. (The final pipeline stage is `update_derived_metrics`,
which re-clamps every bounded stat; since the input state is arbitrary, the
invariant holds after any number of resolved turns.) -/
theorem c8_clamp_invariant (s : GameState) (actions : List Action) (rng : Rng) :
    turn_state_bounds (take_turn s actions rng) := by
  unfold take_turn
  split_ifs <;> simp only [turn_state_bounds]
  exact update_derived_metrics_bounds _

/-- C1 (amended): whenever the summed focus cost exceeds `focus_slots` and
stays within the u8 range (no overflow), `take_turn` rejects the turn before
any action is applied; being a pure function of the input state, a rejection
returns no successor state at all, so the caller's state is unchanged.
(At a true sum of 256 or more the u8 sum wraps and the check can pass — see
the counterexample.) -/
theorem c1_focus_budget (s : GameState) (actions : List Action) (rng : Rng)
    (hnooverflow : (actions.map Action.focus_cost).sum < 256)
    (hover : (actions.map Action.focus_cost).sum > s.focus_slots) :
    (take_turn s actions rng).isOk = false := by
  unfold take_turn
  split
  · rfl
  · split
    · rfl
    · rename_i h2
      rw [Nat.mod_eq_of_lt hnooverflow] at h2
      exact absurd hover h2

/-- Witness for C1: two Hire actions cost 4 > 3 focus slots and are rejected. -/
theorem c1_focus_budget_witness :
    ([Action.hire, Action.hire].map Action.focus_cost).sum < 256
    ∧ ([Action.hire, Action.hire].map Action.focus_cost).sum
        > (GameState.new .indieBootstrap).focus_slots
    ∧ (take_turn (GameState.new .indieBootstrap) [.hire, .hire] ⟨fun _ => 1/2, 0⟩).isOk
        = false :=
  ⟨by decide, by with_unfolding_all decide,
   c1_focus_budget _ _ _ (by decide) (by with_unfolding_all decide)⟩

/-- C1 counterexample: 256 TakeBreak actions have a true summed focus cost of
256 > 3 slots, but the u8 sum wraps to 0, the rejection check passes, and
`take_turn` resolves the whole turn successfully instead of rejecting it. -/
theorem c1_counterexample :
    ((List.replicate 256 Action.takeBreak).map Action.focus_cost).sum
        > (GameState.new .indieBootstrap).focus_slots
    ∧ (take_turn (GameState.new .indieBootstrap) (List.replicate 256 .takeBreak)
        ⟨fun _ => 1/2, 0⟩).isOk = true := by
  constructor
  · with_unfolding_all decide
  · with_unfolding_all decide

/-- C2 (code contradicts the spec's pipeline step 2): `take_turn` computes the
market-effectiveness modifier per action and then drops it (source TODO), and
`resolve_action` reads nothing from `active_market_conditions` — so the
resolved stat effects are identical whatever conditions are active, even
though the modifier of e.g. BullMarket for Fundraise is 1.5 ≠ 1. -/
theorem c2_modifier_unused :
    (∀ (s : GameState) (conds : List MarketCondition) (a : Action) (rng : Rng),
        (resolve_action { s with active_market_conditions := conds } a rng).2.1
          = (resolve_action s a rng).2.1)
    ∧ get_action_effectiveness_modifier (.fundraise 250000)
        [⟨"BullMarket", 5, get_modifiers_for_event .bullMarket⟩] = 1.5
    ∧ get_action_effectiveness_modifier (.fundraise 250000)
        [⟨"BullMarket", 5, get_modifiers_for_event .bullMarket⟩] ≠ 1 := by
  refine ⟨?_, by with_unfolding_all decide, by with_unfolding_all decide⟩
  intro s conds a rng
  cases a <;>
    simp [resolve_action, fundraise_success_chance, calculate_refactor_impact,
      calculate_experiment_outcome, calculate_content_reach, calculate_ad_effectiveness]
  split <;> rename_i h <;> simp [h]

/-- C3 (code contradicts the spec's pipeline step 3): on a turn submitting
ShipFeature + ContentLaunch, `take_turn` detects the `launch_momentum` synergy
(WAU ×1.15) and returns it, but the post-turn state does not reflect the
bonus: its wau is 106, while applying the detected synergy's bonuses to that
state (via the never-invoked `apply_synergy_bonuses`) would give 122. -/
theorem c3_synergy_detected_not_applied :
    (take_turn
        { GameState.new .indieBootstrap with
            unlocked_actions :=
              (GameState.new .indieBootstrap).unlocked_actions ++ ["ContentLaunch"] }
        [.shipFeature .balanced, .contentLaunch .blogPost] ⟨fun _ => 1/2, 0⟩).toOption.map
        (fun o => (o.synergies.map (fun sy : ActionSynergy => sy.id), o.state.wau,
          (apply_synergy_bonuses o.state o.synergies).wau))
      = some (["launch_momentum"], 106, 122) := by
  with_unfolding_all decide

/-- C4 (code contradicts the spec's once-per-week lifecycle): a single
resolved turn decrements an active condition's `duration_weeks` twice — once
in `take_turn` and once more inside `advance_week` — leaving a 4-week
condition at 2, while one application of `update_market_conditions` (the
per-week step the spec describes) leaves it at 3. The oracle used draws 1/2
everywhere, so neither of the two 15%-probability generation rolls appends a
new condition on this turn. -/
theorem c4_market_aged_twice :
    ((take_turn
        { GameState.new .indieBootstrap with
            active_market_conditions :=
              [⟨"BullMarket", 4, get_modifiers_for_event .bullMarket⟩] }
        [.takeBreak] ⟨fun _ => 1/2, 0⟩).toOption.map
        (fun o => o.state.active_market_conditions.map
          (fun c : MarketCondition => c.duration_weeks)))
      = some [2]
    ∧ (update_market_conditions
        { GameState.new .indieBootstrap with
            active_market_conditions :=
              [⟨"BullMarket", 4, get_modifiers_for_event .bullMarket⟩]
        }).active_market_conditions.map (fun c : MarketCondition => c.duration_weeks)
      = [3] := by
  constructor
  · with_unfolding_all decide
  · with_unfolding_all decide

/-! C7 infrastructure: properties of the cooldown map and the weekly pass. -/

theorem lookupCd_cdInsert_self (m : CooldownMap) (k : String) (v : Nat) :
    lookupCd (cdInsert m k v) k = some v := by
  induction m with
  | nil => simp [cdInsert, lookupCd]
  | cons p rest ih =>
      by_cases h : p.1 = k
      · simp [cdInsert, h, lookupCd]
      · simp [cdInsert, h, lookupCd, ih]

theorem lookupCd_cdInsert_ne (m : CooldownMap) (j k : String) (v : Nat) (h : j ≠ k) :
    lookupCd (cdInsert m j v) k = lookupCd m k := by
  induction m with
  | nil => simp [cdInsert, lookupCd, h]
  | cons p rest ih =>
      by_cases hp : p.1 = j
      · simp [cdInsert, hp, lookupCd, h]
      · simp [cdInsert, hp, lookupCd, ih]

theorem lookupCd_decrement (m : CooldownMap) (k : String) :
    lookupCd (decrement_cooldowns m) k
      = (lookupCd m k).map (fun c => if 0 < c then c - 1 else c) := by
  induction m with
  | nil => simp [decrement_cooldowns, lookupCd]
  | cons p rest ih =>
      by_cases h : p.1 = k
      · simp [decrement_cooldowns, lookupCd, h]
      · simp only [decrement_cooldowns, List.map_cons] at *
        simp [lookupCd, h, ih]

/-- The catalog-walk step function of `runEventPass`. -/
def passStep (fires : String → Bool) (acc : List String × CooldownMap) (rule : EventRule) :
    List String × CooldownMap :=
  if fires rule.id && can_trigger_event acc.2 rule.id then
    (acc.1 ++ [rule.id], cdInsert acc.2 rule.id rule.cooldown_weeks)
  else acc

theorem runEventPass_eq_foldl (catalog : List EventRule) (fires : String → Bool)
    (cooldowns : CooldownMap) :
    runEventPass catalog fires cooldowns = catalog.foldl (passStep fires) ([], cooldowns) := rfl

theorem passStep_not_fired (fires : String → Bool) (acc : List String × CooldownMap)
    (rule : EventRule)
    (hcond : ¬(fires rule.id && can_trigger_event acc.2 rule.id) = true) :
    passStep fires acc rule = acc := by
  unfold passStep
  rw [if_neg hcond]

theorem passStep_fired_eq (fires : String → Bool) (acc : List String × CooldownMap)
    (rule : EventRule)
    (hcond : (fires rule.id && can_trigger_event acc.2 rule.id) = true) :
    passStep fires acc rule
      = (acc.1 ++ [rule.id], cdInsert acc.2 rule.id rule.cooldown_weeks) := by
  unfold passStep
  rw [if_pos hcond]

theorem passStep_blocked_id (fires : String → Bool) (acc : List String × CooldownMap)
    (rule : EventRule) (hct : can_trigger_event acc.2 rule.id = false) :
    passStep fires acc rule = acc := by
  unfold passStep
  rw [if_neg]
  simp [hct]

/-- A key whose stored cooldown is positive is never pushed during the walk and
its entry is never overwritten. -/
theorem foldl_passStep_blocked (fires : String → Bool) (k : String) (c : Nat) (hc : 0 < c) :
    ∀ (catalog : List EventRule) (evs : List String) (m : CooldownMap),
      lookupCd m k = some c → k ∉ evs →
      k ∉ (catalog.foldl (passStep fires) (evs, m)).1
      ∧ lookupCd (catalog.foldl (passStep fires) (evs, m)).2 k = some c := by
  intro catalog
  induction catalog with
  | nil => intro evs m hl hevs; exact ⟨hevs, hl⟩
  | cons rule rest ih =>
      intro evs m hl hevs
      simp only [List.foldl_cons]
      by_cases hid : rule.id = k
      · have hct : can_trigger_event m rule.id = false := by
          simp only [can_trigger_event, hid, hl]
          simp
          omega
        rw [passStep_blocked_id fires (evs, m) rule hct]
        exact ih evs m hl hevs
      · by_cases hcond : (fires rule.id && can_trigger_event m rule.id) = true
        · rw [passStep_fired_eq fires (evs, m) rule hcond]
          apply ih
          · rw [lookupCd_cdInsert_ne _ _ _ _ hid]
            exact hl
          · intro hmem
            rcases List.mem_append.mp hmem with h | h
            · exact hevs h
            · exact hid (List.mem_singleton.mp h).symm
        · rw [passStep_not_fired fires (evs, m) rule hcond]
          exact ih evs m hl hevs

/-- A key carried by no catalog rule is neither pushed nor is its entry
touched during the walk. -/
theorem foldl_passStep_untouched (fires : String → Bool) (k : String) :
    ∀ (catalog : List EventRule) (evs : List String) (m : CooldownMap),
      k ∉ catalog.map EventRule.id →
      (k ∈ (catalog.foldl (passStep fires) (evs, m)).1 ↔ k ∈ evs)
      ∧ lookupCd (catalog.foldl (passStep fires) (evs, m)).2 k = lookupCd m k := by
  intro catalog
  induction catalog with
  | nil => intro evs m _; exact ⟨Iff.rfl, rfl⟩
  | cons rule rest ih =>
      intro evs m hk
      have hid : rule.id ≠ k := by
        intro h
        exact hk (by simp [h])
      have hkrest : k ∉ rest.map EventRule.id := by
        intro h
        exact hk (by simp [h])
      simp only [List.foldl_cons]
      by_cases hcond : (fires rule.id && can_trigger_event m rule.id) = true
      · rw [passStep_fired_eq fires (evs, m) rule hcond]
        have h2 := ih (evs ++ [rule.id]) (cdInsert m rule.id rule.cooldown_weeks) hkrest
        refine ⟨h2.1.trans ?_, h2.2.trans (lookupCd_cdInsert_ne _ _ _ _ hid)⟩
        constructor
        · intro hmem
          rcases List.mem_append.mp hmem with h | h
          · exact h
          · exact absurd (List.mem_singleton.mp h).symm hid
        · intro hmem
          exact List.mem_append.mpr (Or.inl hmem)
      · rw [passStep_not_fired fires (evs, m) rule hcond]
        exact ih evs m hkrest

/-- When a rule fires during the walk (its id is among the candidates and was
not an accumulated candidate before), the resulting map records exactly that
rule's `cooldown_weeks` — given the catalog carries no duplicate ids. -/
theorem foldl_passStep_fired (fires : String → Bool) (rule : EventRule) :
    ∀ (catalog : List EventRule), (catalog.map EventRule.id).Nodup → rule ∈ catalog →
    ∀ (evs : List String) (m : CooldownMap), rule.id ∉ evs →
      rule.id ∈ (catalog.foldl (passStep fires) (evs, m)).1 →
      lookupCd (catalog.foldl (passStep fires) (evs, m)).2 rule.id
        = some rule.cooldown_weeks := by
  intro catalog
  induction catalog with
  | nil => intro _ h; simp at h
  | cons head rest ih =>
      intro hnodup hrule evs m hnev hmem
      rw [List.map_cons, List.nodup_cons] at hnodup
      have hhead : head.id ∉ rest.map EventRule.id := hnodup.1
      have hrestnodup : (rest.map EventRule.id).Nodup := hnodup.2
      rcases List.mem_cons.mp hrule with hr | hr
      · subst hr
        by_cases hcond : (fires rule.id && can_trigger_event m rule.id) = true
        · simp only [List.foldl_cons] at hmem ⊢
          rw [passStep_fired_eq fires (evs, m) rule hcond] at hmem ⊢
          have hun := foldl_passStep_untouched fires rule.id rest
            (evs ++ [rule.id]) (cdInsert m rule.id rule.cooldown_weeks) hhead
          rw [hun.2, lookupCd_cdInsert_self]
        · simp only [List.foldl_cons] at hmem ⊢
          rw [passStep_not_fired fires (evs, m) rule hcond] at hmem
          have hun := foldl_passStep_untouched fires rule.id rest evs m hhead
          exact absurd (hun.1.mp hmem) hnev
      · have hne : head.id ≠ rule.id := by
          intro h
          exact hhead (h ▸ List.mem_map_of_mem EventRule.id hr)
        simp only [List.foldl_cons] at hmem ⊢
        by_cases hcond : (fires head.id && can_trigger_event m head.id) = true
        · rw [passStep_fired_eq fires (evs, m) head hcond] at hmem ⊢
          apply ih hrestnodup hr
          · intro hmem2
            rcases List.mem_append.mp hmem2 with h | h
            · exact hnev h
            · exact hne (List.mem_singleton.mp h).symm
          · exact hmem
        · rw [passStep_not_fired fires (evs, m) head hcond] at hmem ⊢
          exact ih hrestnodup hr evs m hnev hmem

/-- A pass in which a key's cooldown is positive: the key is not a candidate
and its cooldown comes out decremented by exactly one. -/
theorem pass_blocked (catalog : List EventRule) (fires : String → Bool) (m : CooldownMap)
    (k : String) (c : Nat) (hl : lookupCd m k = some c) (hc : 0 < c) :
    k ∉ eventCandidates catalog fires m
    ∧ lookupCd (passCooldowns catalog fires m) k = some (c - 1) := by
  have h := foldl_passStep_blocked fires k c hc catalog [] m hl (by simp)
  refine ⟨?_, ?_⟩
  · rw [eventCandidates, runEventPass_eq_foldl]
    exact h.1
  · rw [passCooldowns, lookupCd_decrement, runEventPass_eq_foldl, h.2]
    simp [hc]

/-- A pass in which a rule fires: its cooldown comes out as
`cooldown_weeks - 1` (for a positive cooldown). -/
theorem pass_fired (catalog : List EventRule) (fires : String → Bool) (m : CooldownMap)
    (rule : EventRule) (hnodup : (catalog.map EventRule.id).Nodup) (hrule : rule ∈ catalog)
    (hcw : 0 < rule.cooldown_weeks) (hmem : rule.id ∈ eventCandidates catalog fires m) :
    lookupCd (passCooldowns catalog fires m) rule.id = some (rule.cooldown_weeks - 1) := by
  rw [eventCandidates, runEventPass_eq_foldl] at hmem
  have h := foldl_passStep_fired fires rule catalog hnodup hrule [] m (by simp) hmem
  rw [passCooldowns, lookupCd_decrement, runEventPass_eq_foldl, h]
  simp [hcw]

/-- After firing at week 0, the rule's stored cooldown at the start of week
`j` is `cooldown_weeks - j`, for `1 ≤ j ≤ cooldown_weeks`. -/
theorem cooldown_countdown (catalog : List EventRule) (fires : Nat → String → Bool)
    (cd0 : CooldownMap) (rule : EventRule) (hnodup : (catalog.map EventRule.id).Nodup)
    (hrule : rule ∈ catalog) (hfire : rule.id ∈ candidatesAt catalog fires cd0 0) :
    ∀ j, 1 ≤ j → j ≤ rule.cooldown_weeks →
      lookupCd (cooldownsAt catalog fires cd0 j) rule.id
        = some (rule.cooldown_weeks - j) := by
  intro j
  induction j with
  | zero => omega
  | succ n ihn =>
      intro h1 hle
      by_cases hn : n = 0
      · subst hn
        show lookupCd (passCooldowns catalog (fires 0) (cooldownsAt catalog fires cd0 0))
          rule.id = some (rule.cooldown_weeks - 1)
        exact pass_fired _ _ _ _ hnodup hrule (by omega) hfire
      · have hprev := ihn (by omega) (by omega)
        have hpos : 0 < rule.cooldown_weeks - n := by omega
        have hb := pass_blocked catalog (fires n) (cooldownsAt catalog fires cd0 n)
          rule.id (rule.cooldown_weeks - n) hprev hpos
        show lookupCd (passCooldowns catalog (fires n) (cooldownsAt catalog fires cd0 n))
          rule.id = some (rule.cooldown_weeks - (n + 1))
        rw [hb.2, Nat.sub_sub]

/-- C7: the event cooldown contract. (a) An event whose stored cooldown is
positive at a weekly evaluation never appears in that week's candidate list.
(b) The end-of-pass decrement maps every stored value `c` to
`if 0 < c then c - 1 else c`: it acts exactly once per pass and never takes a
value below zero. (c) Temporal consequence: an event rule that fires at week
W is not a candidate again for any of the following `cooldown_weeks - 1`
weeks (so a cooldown-8 event firing at week W is next eligible at week W+8),
whatever the prerequisite/probability oracles do. -/
theorem c7_event_cooldown_contract :
    (∀ (catalog : List EventRule) (fires : String → Bool) (cd : CooldownMap)
        (k : String) (c : Nat),
        lookupCd cd k = some c → 0 < c → k ∉ eventCandidates catalog fires cd)
    ∧ (∀ (m : CooldownMap) (k : String),
        lookupCd (decrement_cooldowns m) k
          = (lookupCd m k).map (fun c => if 0 < c then c - 1 else c))
    ∧ (∀ (catalog : List EventRule) (rule : EventRule) (fires : Nat → String → Bool)
        (cd : CooldownMap),
        (catalog.map EventRule.id).Nodup → rule ∈ catalog →
        rule.id ∈ candidatesAt catalog fires cd 0 →
        ∀ k, 1 ≤ k → k < rule.cooldown_weeks →
          rule.id ∉ candidatesAt catalog fires cd k) := by
  refine ⟨?_, lookupCd_decrement, ?_⟩
  · intro catalog fires cd k c hl hc
    exact (pass_blocked catalog fires cd k c hl hc).1
  · intro catalog rule fires cd hnodup hrule hfire k h1 hk
    have hlk := cooldown_countdown catalog fires cd rule hnodup hrule hfire k h1 (by omega)
    have hpos : 0 < rule.cooldown_weeks - k := by omega
    exact (pass_blocked catalog (fires k) (cooldownsAt catalog fires cd k)
      rule.id (rule.cooldown_weeks - k) hlk hpos).1

/-- Witness for C7 on the real catalog skeleton: `tech_debt_crisis`
(cooldown 8) is blocked by a stored positive cooldown, a zero cooldown stays
at zero under the decrement, and after firing at week 0 under always-true
oracles it is not a candidate at week 5. -/
theorem c7_event_cooldown_contract_witness :
    "tech_debt_crisis" ∉ eventCandidates eventCatalog (fun _ => true)
        [("tech_debt_crisis", 3)]
    ∧ lookupCd (decrement_cooldowns [("tech_debt_crisis", 3), ("press_mention", 0)])
        "press_mention" = some 0
    ∧ "tech_debt_crisis" ∉ candidatesAt eventCatalog (fun _ _ => true) [] 5 :=
  ⟨c7_event_cooldown_contract.1 eventCatalog (fun _ => true) [("tech_debt_crisis", 3)]
      "tech_debt_crisis" 3 (by decide) (by decide),
   (c7_event_cooldown_contract.2.1 [("tech_debt_crisis", 3), ("press_mention", 0)]
      "press_mention").trans (by decide),
   c7_event_cooldown_contract.2.2 eventCatalog ⟨"tech_debt_crisis", 8⟩ (fun _ _ => true) []
      (by decide) (by decide) (by decide) 5 (by decide) (by decide)⟩

end Founders
